import Mathlib

/-!
Verification development for the Athena SOS liquidation core.

The definitions below are a shallow embedding of the TypeScript sources:

* `src/lib/frax-service.ts` — the Ledger Client (`FraxService`): vault-state
  reads with an offline fallback, deposit/redeem/transfer operations with a
  simulated path, and the `triggerSOS` liquidate-and-transfer sequence.
* `src/unnamed/part_006` — the Agent Orchestrator (`AthenaAgent`): case
  identity, evidence records, escape-plan budgeting, and the orchestrator-level
  `triggerSOS` / `clearLocalState` operations.

Modelling conventions:

* JavaScript numbers are modelled as `ℚ`.  Every numeric claim checked here is
  about values that the source copies or sums verbatim, so the embedding is
  exact.
* Interactions with the external world (RPC reads, transaction submissions,
  `Date.now()`, random identifiers) are passed in as explicit parameters: an
  `Option`/`Except` value models a call that may throw, and a plain value
  models an oracle such as the clock or a generated fake transaction id.
* A thrown JS exception is an `Except.error`/`none` outcome; a source function
  that catches every exception internally is embedded as a total Lean
  function, so "never throws" is totality of the embedding.
* The human-readable log lines pushed by `triggerSOS` are embedded as an
  inductive `SOSLog`, one constructor per template literal in the source.
-/

namespace Athena

/-- `VaultState` from src/lib/frax-service.ts (lines 94-103): snapshot of
holdings at a point in time. -/
structure VaultState where
  sFraxBalance : ℚ
  sFraxValueInFrax : ℚ
  fraxBalance : ℚ
  usdcBalance : ℚ
  totalValueUsd : ℚ
  apy : ℚ
  isOnline : Bool
  network : String
  deriving Repr, DecidableEq

/-- `TransactionResult` from src/lib/frax-service.ts (lines 105-110). -/
structure TransactionResult where
  success : Bool
  txHash : String
  message : String
  explorerUrl : Option String
  deriving Repr, DecidableEq

/-- One log line pushed by `FraxService.triggerSOS`; one constructor per
template literal in src/lib/frax-service.ts lines 438-501.  The numeric or
transaction-id payload of each template is the constructor argument. -/
inductive SOSLog where
  | initiating
  | balanceDetected (sFrax : ℚ)
  | liquidating
  | liquidationTx (hash : String)
  | demoLiquidationTx (hash : String)
  | transferring (amount : ℚ)
  | transferTx (hash : String)
  | demoTransferTx (hash : String)
  | complete
  | errorMsg (msg : String)
  deriving Repr, DecidableEq

/-- `SOSResult` from src/lib/frax-service.ts (lines 112-119). -/
structure SOSResult where
  success : Bool
  liquidatedAmount : ℚ
  transferredAmount : ℚ
  destinationAddress : String
  txHashes : List String
  logs : List SOSLog
  deriving Repr, DecidableEq

namespace FraxService

/-- Values produced by one successful live balance read: the three parallel
`balanceOf` queries and the `convertToAssets` conversion, already scaled to
human units by `formatUnits` (src/lib/frax-service.ts lines 233-245). -/
structure LiveRead where
  sFraxBal : ℚ
  fraxBal : ℚ
  usdcBal : ℚ
  sFraxValue : ℚ
  deriving Repr, DecidableEq

/-- `createFallbackState` (src/lib/frax-service.ts lines 122-134): the
deterministic offline snapshot.  The source keeps `apy: 5.4` as a default
display value. -/
def createFallbackState : VaultState :=
  { sFraxBalance := 0
    sFraxValueInFrax := 0
    fraxBalance := 0
    usdcBalance := 0
    totalValueUsd := 0
    apy := 27 / 5
    isOnline := false
    network := "Not Connected" }

/-- `FraxService.getSimulatedVaultState` (src/lib/frax-service.ts lines
270-282): returns zeros when not connected; same record as the fallback
state. -/
def getSimulatedVaultState : VaultState :=
  { sFraxBalance := 0
    sFraxValueInFrax := 0
    fraxBalance := 0
    usdcBalance := 0
    totalValueUsd := 0
    apy := 27 / 5
    isOnline := false
    network := "Not Connected" }

/-- `FraxService.getVaultState` (src/lib/frax-service.ts lines 226-265).
`isConnected` is the service's connection flag (the source guard
`this.isConnected && this.wallet && this.sFraxContract` collapses to it,
because `isConnected` is set to `true` only after the wallet and contracts are
assigned).  `live = some r` is a live read that returned the values in `r`;
`live = none` is a live read that threw, which the source catches before
falling back.  Total: every path resolves to a value. -/
def getVaultState (isConnected : Bool) (live : Option LiveRead) (network : String) : VaultState :=
  if isConnected then
    match live with
    | some r =>
        { sFraxBalance := r.sFraxBal
          sFraxValueInFrax := r.sFraxValue
          fraxBalance := r.fraxBal
          usdcBalance := r.usdcBal
          totalValueUsd := r.sFraxValue + r.fraxBal + r.usdcBal
          apy := 27 / 5
          isOnline := true
          network := network }
    | none => getSimulatedVaultState
  else getSimulatedVaultState

/-- `FraxService.depositToVault` (src/lib/frax-service.ts lines 296-344).
`liveOutcome` is the approve-then-deposit two-step on the live path: `ok h`
when both steps confirmed with receipt hash `h`, `error e` when either step
threw with message `e` (the source catch reports the whole operation as one
failure).  `fakeTxHash` is the random 64-hex-digit identifier generated on the
simulated path; `fmt` models JavaScript number-to-string interpolation in the
template literals. -/
def depositToVault (isConnected : Bool) (liveOutcome : Except String String)
    (fakeTxHash : String) (fmt : ℚ → String) (explorerUrl : String)
    (amountFrax : ℚ) : TransactionResult :=
  if isConnected then
    match liveOutcome with
    | Except.ok h =>
        { success := true
          txHash := h
          message := "Deposited " ++ fmt amountFrax ++ " FRAX into sFRAX vault"
          explorerUrl := some (explorerUrl ++ "/tx/" ++ h) }
    | Except.error e =>
        { success := false
          txHash := ""
          message := "Deposit failed: " ++ e
          explorerUrl := none }
  else
    { success := true
      txHash := fakeTxHash
      message := "[DEMO] Deposited " ++ fmt amountFrax ++ " FRAX into sFRAX vault"
      explorerUrl := none }

/-- `FraxService.redeemFromVault` (src/lib/frax-service.ts lines 349-388). -/
def redeemFromVault (isConnected : Bool) (liveOutcome : Except String String)
    (fakeTxHash : String) (fmt : ℚ → String) (explorerUrl : String)
    (amountShares : ℚ) : TransactionResult :=
  if isConnected then
    match liveOutcome with
    | Except.ok h =>
        { success := true
          txHash := h
          message := "Redeemed " ++ fmt amountShares ++ " sFRAX shares"
          explorerUrl := some (explorerUrl ++ "/tx/" ++ h) }
    | Except.error e =>
        { success := false
          txHash := ""
          message := "Redeem failed: " ++ e
          explorerUrl := none }
  else
    { success := true
      txHash := fakeTxHash
      message := "[DEMO] Redeemed " ++ fmt amountShares ++ " sFRAX to FRAX"
      explorerUrl := none }

/-- `FraxService.transferFrax` (src/lib/frax-service.ts lines 393-427).
`toAddress.take 8 ++ "..."` embeds the source's `toAddress.slice(0, 8)`. -/
def transferFrax (isConnected : Bool) (liveOutcome : Except String String)
    (fakeTxHash : String) (fmt : ℚ → String) (explorerUrl : String)
    (toAddress : String) (amount : ℚ) : TransactionResult :=
  if isConnected then
    match liveOutcome with
    | Except.ok h =>
        { success := true
          txHash := h
          message := "Transferred " ++ fmt amount ++ " FRAX to " ++ toAddress.take 8 ++ "..."
          explorerUrl := some (explorerUrl ++ "/tx/" ++ h) }
    | Except.error e =>
        { success := false
          txHash := ""
          message := "Transfer failed: " ++ e
          explorerUrl := none }
  else
    { success := true
      txHash := fakeTxHash
      message := "[DEMO] Transferred " ++ fmt amount ++ " FRAX to " ++ toAddress.take 8 ++ "..."
      explorerUrl := none }

/-- `FraxService.triggerSOS` (src/lib/frax-service.ts lines 434-512).

Step structure of the source, mirrored exactly:
1. push the initiating log;
2. read the vault state (`getVaultState` never throws);
3. if the staked balance is positive, liquidate: on the live path the redeem
   call may throw (`redeemRes = Except.error e`), on the simulated path a fake
   transaction id `fakeLiqTx` is synthesized;
4. compute `totalToTransfer = sFraxValueInFrax + fraxBalance` (USDC excluded);
5. transfer: live path may throw (`transferRes`), simulated path synthesizes
   `fakeTransferTx`;
6. push the completion log and return the success record.
Any thrown step is caught by the surrounding try/catch, which appends an
error log and returns the failure record with the transaction ids collected
so far.  The embedding is total: no path propagates an exception. -/
def triggerSOS (isConnected : Bool) (live : Option LiveRead) (network : String)
    (redeemRes transferRes : Except String String)
    (fakeLiqTx fakeTransferTx : String)
    (destinationAddress : String) : SOSResult :=
  let vaultState := getVaultState isConnected live network
  let logs1 : List SOSLog := [SOSLog.initiating, SOSLog.balanceDetected vaultState.sFraxBalance]
  let step2 : Except (List SOSLog × String) (List SOSLog × List String) :=
    if 0 < vaultState.sFraxBalance then
      let logs2 := logs1 ++ [SOSLog.liquidating]
      if isConnected then
        match redeemRes with
        | Except.ok h => Except.ok (logs2 ++ [SOSLog.liquidationTx h], [h])
        | Except.error e => Except.error (logs2, e)
      else
        Except.ok (logs2 ++ [SOSLog.demoLiquidationTx fakeLiqTx], [fakeLiqTx])
    else
      Except.ok (logs1, [])
  match step2 with
  | Except.error (logsF, e) =>
      { success := false
        liquidatedAmount := 0
        transferredAmount := 0
        destinationAddress := destinationAddress
        txHashes := []
        logs := logsF ++ [SOSLog.errorMsg e] }
  | Except.ok (logs2, txs2) =>
      let totalToTransfer := vaultState.sFraxValueInFrax + vaultState.fraxBalance
      let logs3 := logs2 ++ [SOSLog.transferring totalToTransfer]
      let step3 : Except String (List SOSLog × List String) :=
        if isConnected then
          match transferRes with
          | Except.ok h => Except.ok (logs3 ++ [SOSLog.transferTx h], txs2 ++ [h])
          | Except.error e => Except.error e
        else
          Except.ok (logs3 ++ [SOSLog.demoTransferTx fakeTransferTx], txs2 ++ [fakeTransferTx])
      match step3 with
      | Except.error e =>
          { success := false
            liquidatedAmount := 0
            transferredAmount := 0
            destinationAddress := destinationAddress
            txHashes := txs2
            logs := logs3 ++ [SOSLog.errorMsg e] }
      | Except.ok (logs4, txs4) =>
          { success := true
            liquidatedAmount := vaultState.sFraxBalance
            transferredAmount := totalToTransfer
            destinationAddress := destinationAddress
            txHashes := txs4
            logs := logs4 ++ [SOSLog.complete] }

end FraxService

/-- Case lifecycle status from src/unnamed/part_006 (`AthenaCase.status`). -/
inductive CaseStatus where
  | ACTIVE
  | EVACUATED
  | ARCHIVED
  deriving Repr, DecidableEq

/-- `AthenaCase` from src/unnamed/part_006 (lines 274-279). -/
structure AthenaCase where
  caseId : String
  depositAddress : String
  createdAt : ℕ
  status : CaseStatus
  deriving Repr, DecidableEq

/-- Evidence type tag from src/unnamed/part_006 (`EvidenceRecord.type`). -/
inductive EvidenceType where
  | TEXT
  | IMAGE
  | AUDIO
  | VIDEO
  deriving Repr, DecidableEq

/-- Evidence status from src/unnamed/part_006 (`EvidenceRecord.status`). -/
inductive EvidenceStatus where
  | PENDING
  | ON_CHAIN
  | FAILED
  deriving Repr, DecidableEq

/-- Optional classification metadata of an evidence record
(src/unnamed/part_006 lines 288-292). -/
structure EvidenceMeta where
  category : Option String
  riskLevel : Option ℤ
  summary : Option String
  deriving Repr, DecidableEq

/-- `EvidenceRecord` from src/unnamed/part_006 (lines 281-293). -/
structure EvidenceRecord where
  id : String
  hash : String
  type : EvidenceType
  timestamp : ℕ
  txHash : Option String
  status : EvidenceStatus
  metadata : Option EvidenceMeta
  deriving Repr, DecidableEq

/-- The `freedomGoal` component of `EscapePlan` (src/unnamed/part_006
lines 297-301). -/
structure FreedomGoal where
  targetAmount : ℚ
  currentAmount : ℚ
  currency : String
  deriving Repr, DecidableEq

/-- The three-step `strategy` component of `EscapePlan` (src/unnamed/part_006
lines 302-306). -/
structure Strategy where
  step1 : String
  step2 : String
  step3 : String
  deriving Repr, DecidableEq

/-- `EscapePlan` from src/unnamed/part_006 (lines 295-309). -/
structure EscapePlan where
  isReady : Bool
  freedomGoal : FreedomGoal
  strategy : Strategy
  riskLevel : ℤ
  destination : String
  deriving Repr, DecidableEq

/-- `YieldOptimizationResult` from src/unnamed/part_006 (lines 311-318). -/
structure YieldOptimizationResult where
  success : Bool
  previousBalance : ℚ
  newBalance : ℚ
  apy : ℚ
  projectedMonthlyYield : ℚ
  message : String
  deriving Repr, DecidableEq

/-- `AgentState` from src/unnamed/part_006 (lines 320-326).  The source field
name `case` is a Lean keyword, hence the quoted identifier. -/
structure AgentState where
  «case» : Option AthenaCase
  evidence : List EvidenceRecord
  escapePlan : Option EscapePlan
  vaultState : Option VaultState
  lastUpdated : ℕ
  deriving Repr, DecidableEq

namespace AthenaAgent

/-- The empty `AgentState` as built by the `AthenaAgent` constructor and by
`clearLocalState` (src/unnamed/part_006 lines 334-345 and 632-652), with
`lastUpdated = Date.now()` passed in as `now`. -/
def emptyAgentState (now : ℕ) : AgentState :=
  { «case» := none
    evidence := []
    escapePlan := none
    vaultState := none
    lastUpdated := now }

/-- `AthenaAgent.clearLocalState` (src/unnamed/part_006 lines 632-652):
unconditionally replaces the state with the empty state and removes the
persisted copies (persistence is outside this embedding; storage errors are
swallowed by the source's try/catch, so the function is total). -/
def clearLocalState (_s : AgentState) (now : ℕ) : AgentState :=
  emptyAgentState now

/-- The case-id format of `createAnonymousCase`
(src/unnamed/part_006 line 377). -/
def mkCaseId (timestamp : ℕ) (randomPart : String) : String :=
  "ATHENA-" ++ toString timestamp ++ "-" ++ randomPart

/-- `AthenaAgent.createAnonymousCase` (src/unnamed/part_006 lines 373-395).
`timestamp` is `Date.now()`, `randomPart` the random uppercase suffix, and
`depositAddress` the ledger wallet address. -/
def createAnonymousCase (s : AgentState) (timestamp : ℕ) (randomPart : String)
    (depositAddress : String) : AgentState × AthenaCase :=
  let newCase : AthenaCase :=
    { caseId := mkCaseId timestamp randomPart
      depositAddress := depositAddress
      createdAt := timestamp
      status := CaseStatus.ACTIVE }
  ({ s with «case» := some newCase }, newCase)

/-- Critical-tier strategy literal (src/unnamed/part_006 lines 421-426). -/
def criticalStrategy : Strategy :=
  { step1 := "🚨 IMMEDIATE: Document any visible injuries and leave when safe."
    step2 := "📞 Contact emergency services or trusted ally for extraction."
    step3 := "🏃 Head directly to nearest safe shelter or family." }

/-- Elevated-tier strategy literal (src/unnamed/part_006 lines 427-432). -/
def elevatedStrategy : Strategy :=
  { step1 := "📝 Start collecting evidence discreetly (photos, messages)."
    step2 := "💰 Build freedom fund gradually - target ready in 2-4 weeks."
    step3 := "🗺️ Plan exit route and coordinate with trusted contact." }

/-- Moderate-tier strategy literal (src/unnamed/part_006 lines 433-438). -/
def moderateStrategy : Strategy :=
  { step1 := "💭 Assess situation and identify safe communication methods."
    step2 := "💰 Set up stealth savings - small amounts regularly."
    step3 := "📋 Create long-term independence plan with support network." }

/-- `AthenaAgent.calculateFreedomBudget` (src/unnamed/part_006 lines 401-457):
pure budget computation plus the three-way risk-tier branch; overwrites the
single current escape plan in the state.  `destination || 'Nearest Safe City'`
is the JS falsy default, which for strings means the empty string. -/
def calculateFreedomBudget (s : AgentState) (dependents : ℕ) (destination : String)
    (hasOwnMoney : Bool) (riskLevel : ℤ) : AgentState × EscapePlan :=
  let TRANSPORT_PER_PERSON : ℚ := 30
  let EMERGENCY_FOOD : ℚ := 100
  let TEMP_SHELTER_PER_NIGHT : ℚ := 75
  let NIGHTS_NEEDED : ℚ := if 8 ≤ riskLevel then 1 else 3
  let transportCost : ℚ := ((dependents : ℚ) + 1) * TRANSPORT_PER_PERSON
  let shelterCost : ℚ := if hasOwnMoney then 0 else TEMP_SHELTER_PER_NIGHT * NIGHTS_NEEDED
  let totalTarget : ℚ := transportCost + EMERGENCY_FOOD + shelterCost
  let strategy : Strategy :=
    if 8 ≤ riskLevel then criticalStrategy
    else if 5 ≤ riskLevel then elevatedStrategy
    else moderateStrategy
  let plan : EscapePlan :=
    { isReady := false
      freedomGoal :=
        { targetAmount := totalTarget
          currentAmount := (s.vaultState.map fun v => v.totalValueUsd).getD 0
          currency := "USD" }
      strategy := strategy
      riskLevel := riskLevel
      destination := if destination = "" then "Nearest Safe City" else destination }
  ({ s with escapePlan := some plan }, plan)

/-- `AthenaAgent.secureEvidence` (src/unnamed/part_006 lines 465-501).
`genHash` embeds the Hash Utility (`generateHash`), `now` the `Date.now()`
calls inside the function, `randPart` the random id suffix, and `storeResult`
the `TransactionResult` returned by the Ledger Client's `storeEvidenceHash`
(which never throws: it catches internally and reports `success:false`).
The record starts `PENDING`, is promoted to `ON_CHAIN` with the transaction
hash on storage success, is marked `FAILED` otherwise, and is appended to the
evidence list — the only state mutation. -/
def secureEvidence (s : AgentState) (content : String) (etype : EvidenceType)
    (metadata : Option EvidenceMeta) (genHash : String → String) (now : ℕ)
    (randPart : String) (storeResult : TransactionResult) :
    AgentState × EvidenceRecord :=
  let hash := genHash (content ++ toString now)
  let record0 : EvidenceRecord :=
    { id := "EVD-" ++ toString now ++ "-" ++ randPart
      hash := hash
      type := etype
      timestamp := now
      txHash := none
      status := EvidenceStatus.PENDING
      metadata := metadata }
  let record :=
    if storeResult.success then
      { record0 with txHash := some storeResult.txHash, status := EvidenceStatus.ON_CHAIN }
    else
      { record0 with status := EvidenceStatus.FAILED }
  ({ s with evidence := s.evidence ++ [record] }, record)

/-- `AthenaAgent.perceiveFinancialState` (src/unnamed/part_006 lines 352-358):
reads the vault state through the Ledger Client and caches it in the agent
state. -/
def perceiveFinancialState (s : AgentState) (isConnected : Bool)
    (live : Option FraxService.LiveRead) (network : String) (now : ℕ) :
    AgentState × VaultState :=
  let vaultState := FraxService.getVaultState isConnected live network
  ({ s with vaultState := some vaultState, lastUpdated := now }, vaultState)

/-- `AthenaAgent.optimizeYield` (src/unnamed/part_006 lines 506-546).
`live1`/`live2` are the two vault reads (before and after the deposit),
`depositResult` the Ledger Client's `depositToVault` outcome (total — it
catches internally), `fmt` the number-to-string interpolation.  Never touches
the case, the evidence list or the escape plan. -/
def optimizeYield (s : AgentState) (isConnected : Bool)
    (live1 live2 : Option FraxService.LiveRead) (network : String)
    (depositResult : TransactionResult) (fmt : ℚ → String) (now1 now2 : ℕ) :
    AgentState × YieldOptimizationResult :=
  let p1 := perceiveFinancialState s isConnected live1 network now1
  let currentState := p1.2
  if currentState.fraxBalance < 1 then
    (p1.1,
      { success := false
        previousBalance := currentState.sFraxBalance
        newBalance := currentState.sFraxBalance
        apy := currentState.apy
        projectedMonthlyYield := 0
        message := "No idle FRAX available to stake" })
  else if depositResult.success then
    let p2 := perceiveFinancialState p1.1 isConnected live2 network now2
    let newState := p2.2
    (p2.1,
      { success := true
        previousBalance := currentState.sFraxBalance
        newBalance := newState.sFraxBalance
        apy := currentState.apy
        projectedMonthlyYield := newState.sFraxBalance * (currentState.apy / 100) / 12
        message := "Optimized: +" ++ fmt currentState.fraxBalance ++ " FRAX staked at "
          ++ fmt currentState.apy ++ "% APY" })
  else
    (p1.1,
      { success := false
        previousBalance := currentState.sFraxBalance
        newBalance := currentState.sFraxBalance
        apy := currentState.apy
        projectedMonthlyYield := 0
        message := depositResult.message })

/-- `AthenaAgent.triggerSOS` (src/unnamed/part_006 lines 552-569).  The case
status is set to `EVACUATED` first; only then is the Ledger Client's
`triggerSOS` invoked, whose outcome is `ledgerOutcome` (`Except.error e`
models the ledger call itself throwing — the agent has no try/catch here, so
the exception propagates, but the marking has already happened).  On a
successful result only, the full local-state wipe runs. -/
def triggerSOS (s : AgentState) (_safeContactAddress : String) (now : ℕ)
    (ledgerOutcome : Except String SOSResult) :
    AgentState × Except String SOSResult :=
  let s1 : AgentState :=
    { s with «case» := s.«case».map fun c => { c with status := CaseStatus.EVACUATED } }
  match ledgerOutcome with
  | Except.error e => (s1, Except.error e)
  | Except.ok result =>
      if result.success then (clearLocalState s1 now, Except.ok result)
      else (s1, Except.ok result)

end AthenaAgent

/-- One invocation of an exposed Agent Orchestrator operation, with its
external inputs (clock values, random suffixes, ledger outcomes) packaged as
constructor arguments.  These are exactly the exposed operations named in the
orchestrator's public surface that touch `AgentState`:
`createAnonymousCase`, `secureEvidence`, `calculateFreedomBudget`,
`optimizeYield`, `triggerSOS`, `clearLocalState`, `getState`. -/
inductive ExposedOp where
  | createAnonymousCase (timestamp : ℕ) (randomPart : String) (depositAddress : String)
  | secureEvidence (content : String) (etype : EvidenceType) (metadata : Option EvidenceMeta)
      (genHash : String → String) (now : ℕ) (randPart : String) (storeResult : TransactionResult)
  | calculateFreedomBudget (dependents : ℕ) (destination : String) (hasOwnMoney : Bool)
      (riskLevel : ℤ)
  | optimizeYield (isConnected : Bool) (live1 live2 : Option FraxService.LiveRead)
      (network : String) (depositResult : TransactionResult) (fmt : ℚ → String) (now1 now2 : ℕ)
  | triggerSOS (destination : String) (now : ℕ) (ledgerOutcome : Except String SOSResult)
  | clearLocalState (now : ℕ)
  | getState

/-- State evolution of one exposed operation: the `AgentState` after the
operation has run (for `triggerSOS` with a throwing ledger call, the state at
the moment the exception propagates). `getState` returns a copy and does not
mutate. -/
def applyOp (s : AgentState) : ExposedOp → AgentState
  | ExposedOp.createAnonymousCase t r a => (AthenaAgent.createAnonymousCase s t r a).1
  | ExposedOp.secureEvidence c ty m g n r st => (AthenaAgent.secureEvidence s c ty m g n r st).1
  | ExposedOp.calculateFreedomBudget d dest h rl =>
      (AthenaAgent.calculateFreedomBudget s d dest h rl).1
  | ExposedOp.optimizeYield ic l1 l2 nw dr fmt n1 n2 =>
      (AthenaAgent.optimizeYield s ic l1 l2 nw dr fmt n1 n2).1
  | ExposedOp.triggerSOS dest n out => (AthenaAgent.triggerSOS s dest n out).1
  | ExposedOp.clearLocalState n => AthenaAgent.clearLocalState s n
  | ExposedOp.getState => s

/-- Boolean check for the simulated-mode demo marker: the message begins with
the literal `"[DEMO] "` that every simulated-path template in
src/lib/frax-service.ts starts with. -/
def hasDemoMark (m : String) : Bool := m.data.take 7 == "[DEMO] ".data

/-- Concrete fixture for witness theorems: an active case. -/
def sampleCase : AthenaCase :=
  { caseId := "ATHENA-1-K2X9QA"
    depositAddress := "0x742d35Cc6634C0532925a3b844Bc454e4438f44e"
    createdAt := 1
    status := CaseStatus.ACTIVE }

/-- Concrete fixture for witness theorems: an agent state holding
`sampleCase`. -/
def sampleAgentState : AgentState :=
  { «case» := some sampleCase
    evidence := []
    escapePlan := none
    vaultState := none
    lastUpdated := 1 }

/-- Concrete fixture for witness theorems: a failed `SOSResult` as the ledger
returns it on a caught failure. -/
def failedSOSResult : SOSResult :=
  { success := false
    liquidatedAmount := 0
    transferredAmount := 0
    destinationAddress := "0xD"
    txHashes := []
    logs := [] }

/-- String append acts as list append on the underlying character data. -/
theorem strDataAppend (s t : String) : (s ++ t).data = s.data ++ t.data := by
  cases s
  cases t
  rfl

/-- The demo-marker check only looks at the first seven characters, so a
right-append does not change it when the left part is long enough. -/
theorem hasDemoMark_appendLeft (s t : String) (h : 7 ≤ s.data.length) :
    hasDemoMark (s ++ t) = hasDemoMark s := by
  unfold hasDemoMark
  rw [strDataAppend, List.take_append_of_le_length h]

/-- Appending preserves the length lower bound used by the demo-marker
check. -/
theorem strDataLenAppendGe (s t : String) (h : 7 ≤ s.data.length) :
    7 ≤ (s ++ t).data.length := by
  rw [strDataAppend, List.length_append]
  omega

/-- Demo-marker check of a `literal ++ interpolation ++ literal` template
reduces to the check of the leading literal. -/
theorem hasDemoMark_mk2 (a x b : String) (h : 7 ≤ a.data.length) :
    hasDemoMark (a ++ x ++ b) = hasDemoMark a := by
  rw [hasDemoMark_appendLeft (a ++ x) b (strDataLenAppendGe a x h),
    hasDemoMark_appendLeft a x h]

/-- Demo-marker check of a five-part template reduces to the check of the
leading literal. -/
theorem hasDemoMark_mk4 (a x b y c : String) (h : 7 ≤ a.data.length) :
    hasDemoMark (a ++ x ++ b ++ y ++ c) = hasDemoMark a := by
  have h1 := strDataLenAppendGe a x h
  have h2 := strDataLenAppendGe (a ++ x) b h1
  have h3 := strDataLenAppendGe (a ++ x ++ b) y h2
  rw [hasDemoMark_appendLeft _ _ h3, hasDemoMark_appendLeft _ _ h2,
    hasDemoMark_appendLeft _ _ h1, hasDemoMark_appendLeft _ _ h]

/-- `optimizeYield` never touches the case field of the agent state. -/
theorem optimizeYield_case_eq (s : AgentState) (ic : Bool)
    (l1 l2 : Option FraxService.LiveRead) (nw : String) (dr : TransactionResult)
    (fmt : ℚ → String) (n1 n2 : ℕ) :
    (AthenaAgent.optimizeYield s ic l1 l2 nw dr fmt n1 n2).1.«case» = s.«case» := by
  unfold AthenaAgent.optimizeYield AthenaAgent.perceiveFinancialState
  dsimp only
  split_ifs <;> rfl

/-- C1: every `FraxService.triggerSOS` call that returns `success = true`
satisfies `transferredAmount = sFraxValueInFrax + fraxBalance` of the vault
state read at step 2 (the USDC balance is excluded), `liquidatedAmount` equals
the staked-share balance of that same read, and `destinationAddress` in the
result is exactly the input address. -/
theorem C1_sos_success_conservation (isConnected : Bool) (live : Option FraxService.LiveRead)
    (network : String) (redeemRes transferRes : Except String String)
    (fakeLiqTx fakeTransferTx dest : String)
    (h : (FraxService.triggerSOS isConnected live network redeemRes transferRes
            fakeLiqTx fakeTransferTx dest).success = true) :
    (FraxService.triggerSOS isConnected live network redeemRes transferRes
        fakeLiqTx fakeTransferTx dest).transferredAmount =
      (FraxService.getVaultState isConnected live network).sFraxValueInFrax +
        (FraxService.getVaultState isConnected live network).fraxBalance ∧
    (FraxService.triggerSOS isConnected live network redeemRes transferRes
        fakeLiqTx fakeTransferTx dest).liquidatedAmount =
      (FraxService.getVaultState isConnected live network).sFraxBalance ∧
    (FraxService.triggerSOS isConnected live network redeemRes transferRes
        fakeLiqTx fakeTransferTx dest).destinationAddress = dest := by
  cases isConnected with
  | false =>
      simp [FraxService.triggerSOS, FraxService.getVaultState, FraxService.getSimulatedVaultState]
  | true =>
      by_cases hb : 0 < (FraxService.getVaultState true live network).sFraxBalance
      · cases redeemRes with
        | error e => exfalso; simp [FraxService.triggerSOS, hb] at h
        | ok liqh =>
            cases transferRes with
            | error e => exfalso; simp [FraxService.triggerSOS, hb] at h
            | ok trh => simp [FraxService.triggerSOS, hb]
      · cases transferRes with
        | error e => exfalso; simp [FraxService.triggerSOS, hb] at h
        | ok trh => simp [FraxService.triggerSOS, hb]

/-- Witness for C1: a concrete simulated-path SOS run with `success = true`. -/
theorem C1_sos_success_conservation_witness :
    (FraxService.triggerSOS false none "Fraxtal" (Except.ok "0xA") (Except.ok "0xB") "0xF1" "0xF2"
        "0xDEST").transferredAmount =
      (FraxService.getVaultState false none "Fraxtal").sFraxValueInFrax +
        (FraxService.getVaultState false none "Fraxtal").fraxBalance ∧
    (FraxService.triggerSOS false none "Fraxtal" (Except.ok "0xA") (Except.ok "0xB") "0xF1" "0xF2"
        "0xDEST").liquidatedAmount =
      (FraxService.getVaultState false none "Fraxtal").sFraxBalance ∧
    (FraxService.triggerSOS false none "Fraxtal" (Except.ok "0xA") (Except.ok "0xB") "0xF1" "0xF2"
        "0xDEST").destinationAddress = "0xDEST" :=
  C1_sos_success_conservation false none "Fraxtal" (Except.ok "0xA") (Except.ok "0xB")
    "0xF1" "0xF2" "0xDEST" rfl

/-- C2 counterexample: the offline snapshot does set `isOnline = false`, but
its `apy` field — a numeric field of `VaultState` — is the default display
value 5.4, not zero, so "every numeric field is zero" fails. -/
theorem C2_offline_all_zero_counterexample :
    (FraxService.getVaultState false none "Fraxtal").isOnline = false ∧
    ((FraxService.getVaultState false none "Fraxtal").apy == 0) = false := by
  refine ⟨rfl, ?_⟩
  simp only [beq_eq_false_iff_ne, ne_eq]
  norm_num [FraxService.getVaultState, FraxService.getSimulatedVaultState]

/-- C2 amended: with no live connection configured, or when the live read
fails, `getVaultState` returns the deterministic offline snapshot — every
balance and value field is zero, `apy` holds the default display value 5.4,
`isOnline` is false and the network label reads "Not Connected"; the function
is total, so it never throws and no field is left undefined. -/
theorem C2_offline_snapshot_amended (live : Option FraxService.LiveRead) (network : String) :
    FraxService.getVaultState false live network = FraxService.getSimulatedVaultState ∧
    FraxService.getVaultState true none network = FraxService.getSimulatedVaultState ∧
    FraxService.getSimulatedVaultState.sFraxBalance = 0 ∧
    FraxService.getSimulatedVaultState.sFraxValueInFrax = 0 ∧
    FraxService.getSimulatedVaultState.fraxBalance = 0 ∧
    FraxService.getSimulatedVaultState.usdcBalance = 0 ∧
    FraxService.getSimulatedVaultState.totalValueUsd = 0 ∧
    FraxService.getSimulatedVaultState.apy = 27 / 5 ∧
    FraxService.getSimulatedVaultState.isOnline = false ∧
    FraxService.getSimulatedVaultState.network = "Not Connected" :=
  ⟨rfl, rfl, rfl, rfl, rfl, rfl, rfl, rfl, rfl, rfl⟩

/-- C3: every `FraxService.triggerSOS` call in which a step throws is caught
and returns `success = false`, `liquidatedAmount = 0`, `transferredAmount = 0`,
the input destination, a final log entry carrying the error message, and
exactly the transaction ids collected before the failure — empty when the
liquidation threw, and the liquidation id (when a liquidation was committed)
when the transfer threw.  Totality of the embedding is the
"never propagates the exception" part. -/
theorem C3_sos_failure_handling (isConnected : Bool) (live : Option FraxService.LiveRead)
    (network : String) (redeemRes transferRes : Except String String)
    (fakeLiqTx fakeTransferTx dest : String)
    (h : (FraxService.triggerSOS isConnected live network redeemRes transferRes
            fakeLiqTx fakeTransferTx dest).success = false) :
    (FraxService.triggerSOS isConnected live network redeemRes transferRes
        fakeLiqTx fakeTransferTx dest).liquidatedAmount = 0 ∧
    (FraxService.triggerSOS isConnected live network redeemRes transferRes
        fakeLiqTx fakeTransferTx dest).transferredAmount = 0 ∧
    (FraxService.triggerSOS isConnected live network redeemRes transferRes
        fakeLiqTx fakeTransferTx dest).destinationAddress = dest ∧
    ∃ e, (FraxService.triggerSOS isConnected live network redeemRes transferRes
            fakeLiqTx fakeTransferTx dest).logs.getLast? = some (SOSLog.errorMsg e) ∧
      ((redeemRes = Except.error e ∧
          (FraxService.triggerSOS isConnected live network redeemRes transferRes
              fakeLiqTx fakeTransferTx dest).txHashes = []) ∨
       (transferRes = Except.error e ∧
          (FraxService.triggerSOS isConnected live network redeemRes transferRes
              fakeLiqTx fakeTransferTx dest).txHashes =
            (if 0 < (FraxService.getVaultState isConnected live network).sFraxBalance then
               (match redeemRes with
                | Except.ok liqHash => [liqHash]
                | Except.error _ => ([] : List String))
             else []))) := by
  cases isConnected with
  | false =>
      exfalso
      simp [FraxService.triggerSOS, FraxService.getVaultState,
        FraxService.getSimulatedVaultState] at h
  | true =>
      by_cases hb : 0 < (FraxService.getVaultState true live network).sFraxBalance
      · cases redeemRes with
        | error e =>
            refine ⟨?_, ?_, ?_, e, ?_, Or.inl ⟨rfl, ?_⟩⟩ <;>
              simp [FraxService.triggerSOS, hb]
        | ok liqh =>
            cases transferRes with
            | error e =>
                refine ⟨?_, ?_, ?_, e, ?_, Or.inr ⟨rfl, ?_⟩⟩ <;>
                  simp [FraxService.triggerSOS, hb]
            | ok trh => exfalso; simp [FraxService.triggerSOS, hb] at h
      · cases transferRes with
        | error e =>
            refine ⟨?_, ?_, ?_, e, ?_, Or.inr ⟨rfl, ?_⟩⟩ <;>
              simp [FraxService.triggerSOS, hb]
        | ok trh => exfalso; simp [FraxService.triggerSOS, hb] at h

/-- Witness for C3: a live-path run in which the liquidation committed with id
`0xLIQ` and the transfer then threw, so the failed result still reports the
liquidation id. -/
theorem C3_sos_failure_handling_witness :
    (FraxService.triggerSOS true (some ⟨100, 50, 25, 110⟩) "Fraxtal" (Except.ok "0xLIQ")
        (Except.error "transfer reverted") "0xF1" "0xF2" "0xDEST").liquidatedAmount = 0 ∧
    (FraxService.triggerSOS true (some ⟨100, 50, 25, 110⟩) "Fraxtal" (Except.ok "0xLIQ")
        (Except.error "transfer reverted") "0xF1" "0xF2" "0xDEST").transferredAmount = 0 ∧
    (FraxService.triggerSOS true (some ⟨100, 50, 25, 110⟩) "Fraxtal" (Except.ok "0xLIQ")
        (Except.error "transfer reverted") "0xF1" "0xF2" "0xDEST").destinationAddress =
      "0xDEST" ∧
    ∃ e, (FraxService.triggerSOS true (some ⟨100, 50, 25, 110⟩) "Fraxtal" (Except.ok "0xLIQ")
            (Except.error "transfer reverted") "0xF1" "0xF2" "0xDEST").logs.getLast? =
          some (SOSLog.errorMsg e) ∧
      (((Except.ok "0xLIQ" : Except String String) = Except.error e ∧
          (FraxService.triggerSOS true (some ⟨100, 50, 25, 110⟩) "Fraxtal" (Except.ok "0xLIQ")
              (Except.error "transfer reverted") "0xF1" "0xF2" "0xDEST").txHashes = []) ∨
       ((Except.error "transfer reverted" : Except String String) = Except.error e ∧
          (FraxService.triggerSOS true (some ⟨100, 50, 25, 110⟩) "Fraxtal" (Except.ok "0xLIQ")
              (Except.error "transfer reverted") "0xF1" "0xF2" "0xDEST").txHashes =
            (if 0 < (FraxService.getVaultState true (some ⟨100, 50, 25, 110⟩)
                  "Fraxtal").sFraxBalance then
               (match (Except.ok "0xLIQ" : Except String String) with
                | Except.ok liqHash => [liqHash]
                | Except.error _ => ([] : List String))
             else []))) :=
  C3_sos_failure_handling true (some ⟨100, 50, 25, 110⟩) "Fraxtal" (Except.ok "0xLIQ")
    (Except.error "transfer reverted") "0xF1" "0xF2" "0xDEST" rfl

/-- C8 counterexample: on the simulated path the vault read yields a staked
balance of 0, never 500, and the concrete offline run of
`triggerSOS("0xABC...")` produces `liquidatedAmount = 0` (not 500) and exactly
one synthesized transaction id (not two). -/
theorem C8_offline_sos_scenario_counterexample :
    (FraxService.getVaultState false none "Fraxtal").sFraxBalance = 0 ∧
    (FraxService.triggerSOS false none "Fraxtal" (Except.error "unreachable")
        (Except.error "unreachable") "0xF1" "0xF2" "0xABC...").liquidatedAmount = 0 ∧
    ((FraxService.triggerSOS false none "Fraxtal" (Except.error "unreachable")
        (Except.error "unreachable") "0xF1" "0xF2" "0xABC...").liquidatedAmount == 500) = false ∧
    (FraxService.triggerSOS false none "Fraxtal" (Except.error "unreachable")
        (Except.error "unreachable") "0xF1" "0xF2" "0xABC...").txHashes.length = 1 ∧
    ((FraxService.triggerSOS false none "Fraxtal" (Except.error "unreachable")
        (Except.error "unreachable") "0xF1" "0xF2" "0xABC...").txHashes.length == 2) = false := by
  refine ⟨rfl, ?_, ?_, ?_, ?_⟩
  · norm_num [FraxService.triggerSOS, FraxService.getVaultState,
      FraxService.getSimulatedVaultState]
  · simp only [beq_eq_false_iff_ne, ne_eq]
    norm_num [FraxService.triggerSOS, FraxService.getVaultState,
      FraxService.getSimulatedVaultState]
  · norm_num [FraxService.triggerSOS, FraxService.getVaultState,
      FraxService.getSimulatedVaultState]
  · simp only [beq_eq_false_iff_ne, ne_eq]
    norm_num [FraxService.triggerSOS, FraxService.getVaultState,
      FraxService.getSimulatedVaultState]

/-- C8 amended: with the live connection unavailable the simulated vault read
is all zeros, so `triggerSOS("0xABC...")` returns `success = true`,
`liquidatedAmount = 0`, `transferredAmount = 0`, exactly one synthesized
transaction id (the transfer id — the liquidation step is skipped at zero
staked balance), and a final log line indicating completion. -/
theorem C8_offline_sos_behavior_amended (live : Option FraxService.LiveRead) (network : String)
    (redeemRes transferRes : Except String String) (fakeLiqTx fakeTransferTx : String) :
    FraxService.triggerSOS false live network redeemRes transferRes fakeLiqTx fakeTransferTx
        "0xABC..." =
      { success := true
        liquidatedAmount := 0
        transferredAmount := 0
        destinationAddress := "0xABC..."
        txHashes := [fakeTransferTx]
        logs := [SOSLog.initiating, SOSLog.balanceDetected 0, SOSLog.transferring 0,
                 SOSLog.demoTransferTx fakeTransferTx, SOSLog.complete] } ∧
    (FraxService.triggerSOS false live network redeemRes transferRes fakeLiqTx fakeTransferTx
        "0xABC...").logs.getLast? = some SOSLog.complete := by
  constructor <;>
    norm_num [FraxService.triggerSOS, FraxService.getVaultState,
      FraxService.getSimulatedVaultState]

/-- C4: for all inputs with `riskLevel ∈ [1, 10]`, the budget calculation
returns `targetAmount = (dependents+1)*30 + 100 + (hasOwnMoney ? 0 :
75 * (riskLevel >= 8 ? 1 : 3))`, and selects the Critical strategy exactly
when `riskLevel >= 8`, Elevated exactly when `5 <= riskLevel < 8`, Moderate
exactly when `riskLevel < 5` (8 and 5 inclusive lower bounds); in particular
`dependents = 2`, `hasOwnMoney = false`, `riskLevel = 9` yields target 265 and
the Critical tier. -/
theorem C4_budget_formula_and_tiers :
    (∀ (s : AgentState) (dependents : ℕ) (destination : String) (hasOwnMoney : Bool)
        (riskLevel : ℤ), 1 ≤ riskLevel → riskLevel ≤ 10 →
      ((AthenaAgent.calculateFreedomBudget s dependents destination hasOwnMoney
            riskLevel).2.freedomGoal.targetAmount =
          ((dependents : ℚ) + 1) * 30 + 100 +
            (if hasOwnMoney then 0 else 75 * (if 8 ≤ riskLevel then 1 else 3)) ∧
        ((AthenaAgent.calculateFreedomBudget s dependents destination hasOwnMoney
            riskLevel).2.strategy = AthenaAgent.criticalStrategy ↔ 8 ≤ riskLevel) ∧
        ((AthenaAgent.calculateFreedomBudget s dependents destination hasOwnMoney
            riskLevel).2.strategy = AthenaAgent.elevatedStrategy ↔
          (5 ≤ riskLevel ∧ riskLevel < 8)) ∧
        ((AthenaAgent.calculateFreedomBudget s dependents destination hasOwnMoney
            riskLevel).2.strategy = AthenaAgent.moderateStrategy ↔ riskLevel < 5))) ∧
    ((AthenaAgent.calculateFreedomBudget (AthenaAgent.emptyAgentState 0) 2 "Springfield" false
        9).2.freedomGoal.targetAmount = 265 ∧
      (AthenaAgent.calculateFreedomBudget (AthenaAgent.emptyAgentState 0) 2 "Springfield" false
        9).2.strategy = AthenaAgent.criticalStrategy) := by
  constructor
  · intro s dependents destination hasOwnMoney riskLevel _h1 _h2
    have hce : AthenaAgent.criticalStrategy ≠ AthenaAgent.elevatedStrategy := by decide
    have hcm : AthenaAgent.criticalStrategy ≠ AthenaAgent.moderateStrategy := by decide
    have hem : AthenaAgent.elevatedStrategy ≠ AthenaAgent.moderateStrategy := by decide
    by_cases h8 : 8 ≤ riskLevel
    · refine ⟨by simp [AthenaAgent.calculateFreedomBudget, h8], ?_, ?_, ?_⟩
      · simp [AthenaAgent.calculateFreedomBudget, h8]
      · simp [AthenaAgent.calculateFreedomBudget, h8, hce]
      · simp [AthenaAgent.calculateFreedomBudget, h8, hcm]
        omega
    · by_cases h5 : 5 ≤ riskLevel
      · refine ⟨by simp [AthenaAgent.calculateFreedomBudget, h8], ?_, ?_, ?_⟩
        · simp [AthenaAgent.calculateFreedomBudget, h8, h5, hce.symm]
        · simp [AthenaAgent.calculateFreedomBudget, h8, h5]
          omega
        · simp [AthenaAgent.calculateFreedomBudget, h8, h5, hem]
      · refine ⟨by simp [AthenaAgent.calculateFreedomBudget, h8], ?_, ?_, ?_⟩
        · simp [AthenaAgent.calculateFreedomBudget, h8, h5, hcm.symm]
        · simp [AthenaAgent.calculateFreedomBudget, h8, h5, hem.symm]
        · simp [AthenaAgent.calculateFreedomBudget, h8, h5]
          omega
  · constructor
    · norm_num [AthenaAgent.calculateFreedomBudget, AthenaAgent.emptyAgentState]
    · norm_num [AthenaAgent.calculateFreedomBudget]

/-- Witness for C4: the bounds hold at `riskLevel = 9` and the general part of
the theorem instantiates there, pinning the Critical tier. -/
theorem C4_budget_formula_and_tiers_witness :
    (1 : ℤ) ≤ 9 ∧ (9 : ℤ) ≤ 10 ∧
    ((AthenaAgent.calculateFreedomBudget (AthenaAgent.emptyAgentState 0) 3 "Shelby" false
        9).2.strategy = AthenaAgent.criticalStrategy ↔ (8 : ℤ) ≤ 9) :=
  ⟨by decide, by decide,
    (C4_budget_formula_and_tiers.1 (AthenaAgent.emptyAgentState 0) 3 "Shelby" false 9
      (by decide) (by decide)).2.1⟩

/-- C5: while a case exists, the orchestrator's `triggerSOS` marks the case
`EVACUATED` before the ledger call (the marking is in place even when the
ledger call throws or returns failure), and the full wipe to the empty state
happens exactly when the ledger result has `success = true`; on failure the
evidence list and escape plan are untouched.  The result of the ledger call is
passed through unchanged. -/
theorem C5_sos_marks_evacuated_wipes_iff_success (s : AgentState) (dest : String) (now : ℕ)
    (ledgerOutcome : Except String SOSResult) (c : AthenaCase)
    (h : s.«case» = some c) :
    ((AthenaAgent.triggerSOS s dest now ledgerOutcome).2 = ledgerOutcome) ∧
    (∀ e, ledgerOutcome = Except.error e →
      (AthenaAgent.triggerSOS s dest now ledgerOutcome).1.«case» =
          some { c with status := CaseStatus.EVACUATED } ∧
      (AthenaAgent.triggerSOS s dest now ledgerOutcome).1.evidence = s.evidence ∧
      (AthenaAgent.triggerSOS s dest now ledgerOutcome).1.escapePlan = s.escapePlan) ∧
    (∀ r, ledgerOutcome = Except.ok r → r.success = true →
      (AthenaAgent.triggerSOS s dest now ledgerOutcome).1 = AthenaAgent.emptyAgentState now) ∧
    (∀ r, ledgerOutcome = Except.ok r → r.success = false →
      (AthenaAgent.triggerSOS s dest now ledgerOutcome).1.«case» =
          some { c with status := CaseStatus.EVACUATED } ∧
      (AthenaAgent.triggerSOS s dest now ledgerOutcome).1.evidence = s.evidence ∧
      (AthenaAgent.triggerSOS s dest now ledgerOutcome).1.escapePlan = s.escapePlan) := by
  cases ledgerOutcome with
  | error e =>
      refine ⟨rfl, ?_, ?_, ?_⟩
      · intro e2 _
        simp [AthenaAgent.triggerSOS, h]
      · intro r hr
        exact absurd hr (by simp)
      · intro r hr
        exact absurd hr (by simp)
  | ok r =>
      cases hs : r.success with
      | true =>
          refine ⟨by simp [AthenaAgent.triggerSOS, hs], ?_, ?_, ?_⟩
          · intro e he
            exact absurd he (by simp)
          · intro r2 hr2 _
            have : r2 = r := by simpa using hr2.symm
            simp [AthenaAgent.triggerSOS, hs, AthenaAgent.clearLocalState]
          · intro r2 hr2 hs2
            have hr2e : r2 = r := by simpa using hr2.symm
            rw [hr2e] at hs2
            rw [hs] at hs2
            exact absurd hs2 (by simp)
      | false =>
          refine ⟨by simp [AthenaAgent.triggerSOS, hs], ?_, ?_, ?_⟩
          · intro e he
            exact absurd he (by simp)
          · intro r2 hr2 hs2
            have hr2e : r2 = r := by simpa using hr2.symm
            rw [hr2e] at hs2
            rw [hs] at hs2
            exact absurd hs2 (by simp)
          · intro r2 hr2 _
            simp [AthenaAgent.triggerSOS, hs, h]

/-- Witness for C5: on the fixture state with an active case and a failed
ledger result, the case is marked `EVACUATED` and nothing is wiped. -/
theorem C5_sos_marks_evacuated_wipes_iff_success_witness :
    (AthenaAgent.triggerSOS sampleAgentState "0xD" 2 (Except.ok failedSOSResult)).1.«case» =
      some { sampleCase with status := CaseStatus.EVACUATED } ∧
    (AthenaAgent.triggerSOS sampleAgentState "0xD" 2
        (Except.ok failedSOSResult)).1.evidence = sampleAgentState.evidence ∧
    (AthenaAgent.triggerSOS sampleAgentState "0xD" 2
        (Except.ok failedSOSResult)).1.escapePlan = sampleAgentState.escapePlan :=
  (C5_sos_marks_evacuated_wipes_iff_success sampleAgentState "0xD" 2
      (Except.ok failedSOSResult) sampleCase rfl).2.2.2 failedSOSResult rfl rfl

/-- C6: across the exposed orchestrator operations, an `ACTIVE` case present
after an operation is either the unchanged case that was already present
before, or a freshly created case produced by `createAnonymousCase`; hence no
exposed operation ever sets an existing case's status back to `ACTIVE` — in
particular an `EVACUATED` case is never reverted. -/
theorem C6_case_status_monotonic (s : AgentState) (op : ExposedOp) (cNew : AthenaCase)
    (h1 : (applyOp s op).«case» = some cNew)
    (h2 : cNew.status = CaseStatus.ACTIVE) :
    s.«case» = some cNew ∨
    ∃ t rp a, op = ExposedOp.createAnonymousCase t rp a ∧
      cNew = { caseId := AthenaAgent.mkCaseId t rp, depositAddress := a, createdAt := t,
               status := CaseStatus.ACTIVE } := by
  cases op with
  | createAnonymousCase t rp a =>
      right
      refine ⟨t, rp, a, rfl, ?_⟩
      simp [applyOp, AthenaAgent.createAnonymousCase] at h1
      exact h1.symm
  | secureEvidence c ty m g n r st =>
      left
      simpa [applyOp, AthenaAgent.secureEvidence] using h1
  | calculateFreedomBudget d dest hm rl =>
      left
      simpa [applyOp, AthenaAgent.calculateFreedomBudget] using h1
  | optimizeYield ic l1 l2 nw dr fmt n1 n2 =>
      left
      rw [← optimizeYield_case_eq s ic l1 l2 nw dr fmt n1 n2]
      exact h1
  | triggerSOS dest n out =>
      exfalso
      have hcase : (applyOp s (ExposedOp.triggerSOS dest n out)).«case» = none ∨
          (applyOp s (ExposedOp.triggerSOS dest n out)).«case» =
            s.«case».map fun c0 => { c0 with status := CaseStatus.EVACUATED } := by
        cases out with
        | error e => right; rfl
        | ok r =>
            cases hs : r.success with
            | true =>
                left
                simp [applyOp, AthenaAgent.triggerSOS, hs, AthenaAgent.clearLocalState,
                  AthenaAgent.emptyAgentState]
            | false =>
                right
                simp [applyOp, AthenaAgent.triggerSOS, hs]
      rcases hcase with hnone | hmap
      · rw [hnone] at h1
        exact Option.noConfusion h1
      · rw [hmap] at h1
        rcases Option.map_eq_some'.mp h1 with ⟨c0, _, hc0⟩
        rw [← hc0] at h2
        simp at h2
  | clearLocalState n =>
      exfalso
      have hnone : (applyOp s (ExposedOp.clearLocalState n)).«case» = none := rfl
      rw [hnone] at h1
      exact Option.noConfusion h1
  | getState =>
      left
      exact h1

/-- Witness for C6: a concrete `createAnonymousCase` step whose `ACTIVE`
post-state case is the freshly created record. -/
theorem C6_case_status_monotonic_witness :
    sampleAgentState.«case» =
      some { caseId := AthenaAgent.mkCaseId 7 "XYZ123", depositAddress := "0xADDR",
             createdAt := 7, status := CaseStatus.ACTIVE } ∨
    ∃ t rp a,
      ExposedOp.createAnonymousCase 7 "XYZ123" "0xADDR" =
        ExposedOp.createAnonymousCase t rp a ∧
      ({ caseId := AthenaAgent.mkCaseId 7 "XYZ123", depositAddress := "0xADDR", createdAt := 7,
         status := CaseStatus.ACTIVE } : AthenaCase) =
        { caseId := AthenaAgent.mkCaseId t rp, depositAddress := a, createdAt := t,
          status := CaseStatus.ACTIVE } :=
  C6_case_status_monotonic sampleAgentState (ExposedOp.createAnonymousCase 7 "XYZ123" "0xADDR")
    { caseId := AthenaAgent.mkCaseId 7 "XYZ123", depositAddress := "0xADDR", createdAt := 7,
      status := CaseStatus.ACTIVE } rfl rfl

/-- C7: clearing twice produces the same empty state both times — case null,
evidence empty, escape plan null, vault snapshot null — and the second call is
a no-op on those fields relative to the first.  `clearLocalState` is a total
function of an arbitrary prior state, so calling it with no case ever created
never throws. -/
theorem C7_clear_local_state_idempotent (s : AgentState) (now1 now2 : ℕ) :
    (AthenaAgent.clearLocalState s now1).«case» = none ∧
    (AthenaAgent.clearLocalState s now1).evidence = [] ∧
    (AthenaAgent.clearLocalState s now1).escapePlan = none ∧
    (AthenaAgent.clearLocalState s now1).vaultState = none ∧
    (AthenaAgent.clearLocalState (AthenaAgent.clearLocalState s now1) now2).«case» =
      (AthenaAgent.clearLocalState s now1).«case» ∧
    (AthenaAgent.clearLocalState (AthenaAgent.clearLocalState s now1) now2).evidence =
      (AthenaAgent.clearLocalState s now1).evidence ∧
    (AthenaAgent.clearLocalState (AthenaAgent.clearLocalState s now1) now2).escapePlan =
      (AthenaAgent.clearLocalState s now1).escapePlan ∧
    (AthenaAgent.clearLocalState (AthenaAgent.clearLocalState s now1) now2).vaultState =
      (AthenaAgent.clearLocalState s now1).vaultState :=
  ⟨rfl, rfl, rfl, rfl, rfl, rfl, rfl, rfl⟩

/-- C9: `secureEvidence` appends exactly one record to the evidence list, with
status `ON_CHAIN` and the storage transaction id exactly when the Ledger
Client's evidence-storage call reports success, and `FAILED` with no
transaction id otherwise; the Boolean conjunct states that the status is
`ON_CHAIN` only if a transaction id is present.  The embedding is total, so a
storage failure never throws. -/
theorem C9_secure_evidence_record (s : AgentState) (content : String) (ty : EvidenceType)
    (meta : Option EvidenceMeta) (genHash : String → String) (now : ℕ) (randPart : String)
    (storeResult : TransactionResult) :
    (AthenaAgent.secureEvidence s content ty meta genHash now randPart storeResult).1.evidence =
      s.evidence ++
        [(AthenaAgent.secureEvidence s content ty meta genHash now randPart storeResult).2] ∧
    (AthenaAgent.secureEvidence s content ty meta genHash now randPart storeResult).2.status =
      (if storeResult.success then EvidenceStatus.ON_CHAIN else EvidenceStatus.FAILED) ∧
    (AthenaAgent.secureEvidence s content ty meta genHash now randPart storeResult).2.txHash =
      (if storeResult.success then some storeResult.txHash else none) ∧
    (((AthenaAgent.secureEvidence s content ty meta genHash now randPart
          storeResult).2.txHash.isSome) ||
        !((AthenaAgent.secureEvidence s content ty meta genHash now randPart
            storeResult).2.status == EvidenceStatus.ON_CHAIN)) = true ∧
    (AthenaAgent.secureEvidence s content ty meta genHash now randPart storeResult).1.«case» =
      s.«case» ∧
    (AthenaAgent.secureEvidence s content ty meta genHash now randPart storeResult).1.escapePlan =
      s.escapePlan := by
  cases hs : storeResult.success <;>
    simp [AthenaAgent.secureEvidence, hs]

/-- C10: on the simulated path (no live connection), `depositToVault`,
`redeemFromVault` and `transferFrax` return `success = true` with the
generated transaction identifier, and the synthesized result carries the
`"[DEMO] "` marker in its message, while no live-path message carries it — so
callers can tell a simulated result apart from a real on-chain one. -/
theorem C10_simulated_tx_demo_marker (liveDep liveRed liveTr : Except String String)
    (fakeTx : String) (fmt : ℚ → String) (explorer : String) (amount shares value : ℚ)
    (toAddr : String) :
    (FraxService.depositToVault false liveDep fakeTx fmt explorer amount).success = true ∧
    (FraxService.depositToVault false liveDep fakeTx fmt explorer amount).txHash = fakeTx ∧
    hasDemoMark (FraxService.depositToVault false liveDep fakeTx fmt explorer amount).message =
      true ∧
    (FraxService.redeemFromVault false liveRed fakeTx fmt explorer shares).success = true ∧
    (FraxService.redeemFromVault false liveRed fakeTx fmt explorer shares).txHash = fakeTx ∧
    hasDemoMark (FraxService.redeemFromVault false liveRed fakeTx fmt explorer shares).message =
      true ∧
    (FraxService.transferFrax false liveTr fakeTx fmt explorer toAddr value).success = true ∧
    (FraxService.transferFrax false liveTr fakeTx fmt explorer toAddr value).txHash = fakeTx ∧
    hasDemoMark (FraxService.transferFrax false liveTr fakeTx fmt explorer toAddr
        value).message = true ∧
    hasDemoMark (FraxService.depositToVault true liveDep fakeTx fmt explorer amount).message =
      false ∧
    hasDemoMark (FraxService.redeemFromVault true liveRed fakeTx fmt explorer shares).message =
      false ∧
    hasDemoMark (FraxService.transferFrax true liveTr fakeTx fmt explorer toAddr
        value).message = false := by
  refine ⟨rfl, rfl, ?_, rfl, rfl, ?_, rfl, rfl, ?_, ?_, ?_, ?_⟩
  · show hasDemoMark ("[DEMO] Deposited " ++ fmt amount ++ " FRAX into sFRAX vault") = true
    rw [hasDemoMark_mk2 _ _ _ (by decide)]
    decide
  · show hasDemoMark ("[DEMO] Redeemed " ++ fmt shares ++ " sFRAX to FRAX") = true
    rw [hasDemoMark_mk2 _ _ _ (by decide)]
    decide
  · show hasDemoMark
        ("[DEMO] Transferred " ++ fmt value ++ " FRAX to " ++ toAddr.take 8 ++ "...") = true
    rw [hasDemoMark_mk4 _ _ _ _ _ (by decide)]
    decide
  · cases liveDep with
    | ok h =>
        show hasDemoMark ("Deposited " ++ fmt amount ++ " FRAX into sFRAX vault") = false
        rw [hasDemoMark_mk2 _ _ _ (by decide)]
        decide
    | error e =>
        show hasDemoMark ("Deposit failed: " ++ e) = false
        rw [hasDemoMark_appendLeft _ _ (by decide)]
        decide
  · cases liveRed with
    | ok h =>
        show hasDemoMark ("Redeemed " ++ fmt shares ++ " sFRAX shares") = false
        rw [hasDemoMark_mk2 _ _ _ (by decide)]
        decide
    | error e =>
        show hasDemoMark ("Redeem failed: " ++ e) = false
        rw [hasDemoMark_appendLeft _ _ (by decide)]
        decide
  · cases liveTr with
    | ok h =>
        show hasDemoMark
            ("Transferred " ++ fmt value ++ " FRAX to " ++ toAddr.take 8 ++ "...") = false
        rw [hasDemoMark_mk4 _ _ _ _ _ (by decide)]
        decide
    | error e =>
        show hasDemoMark ("Transfer failed: " ++ e) = false
        rw [hasDemoMark_appendLeft _ _ (by decide)]
        decide

end Athena
